import Mathlib

/-!
# Verification of the neurolab simulation core

Shallow embedding of the fixed-step ODE simulation core of the neurolab
repository: the generic RK4 integrator (`utils/rk4`), the Izhikevich
neuron model, the Hodgkin-Huxley neuron model and its rate functions, and
the AMPA/GABA-A synapse model.

Modelling conventions:
* C `float` arithmetic is idealised as exact rational arithmetic (`ℚ`);
  every numeric literal of the source is carried over verbatim.
* The C library exponential `exp` is a transcendental black box; all
  definitions that call it are parametrised by an abstract `e : ℚ → ℚ`.
  Properties proved for every `e` in particular hold for the actual
  exponential.
* The derivative callbacks of the HH neuron and of the synapse write into
  a current/concentration cache as a side channel; the RK4 embedding
  therefore threads an explicit cache value through the four derivative
  evaluations, exactly in the order the C integrator calls them.
* Null handles are modelled with `Option`; the values behind the
  synapse's non-owning pointers (pre/post voltage, post current
  accumulator) are passed explicitly to the functions that dereference
  them, and a missing `iSynPost` pointer (unconnected synapse) is an
  `Option ℚ` accumulator.
-/

namespace NeuroLab

/-! ## RK4 integrator (src: utils rk4.c, `RK4Calculate`)

The C integrator calls the derivative callback four times on
(state, temp-state) buffers; the callback receives the model struct via
`params` and may write cached currents into it.  We embed the callback as
`f : (Fin n → ℚ) → σ → (Fin n → ℚ) × σ`: from the state vector and the
current cache it produces the derivative vector and the new cache. -/

/-- One RK4 step: mirrors `RK4Calculate` in the C source, including the
`dt * 0.5` half-step, the evaluation order k1, k2, k3, k4 (which
determines the final content of the side-effect cache), and the update
`state[i] += (k1[i] + 2*(k2[i] + k3[i]) + k4[i]) * (dt/6)`. -/
def RK4Calculate {σ : Type} (n : ℕ) (dt : ℚ)
    (f : (Fin n → ℚ) → σ → (Fin n → ℚ) × σ)
    (state : Fin n → ℚ) (cache : σ) : (Fin n → ℚ) × σ :=
  let dtHalf := dt * (1/2)
  let p1 := f state cache
  let k1 := p1.1
  let p2 := f (fun i => state i + dtHalf * k1 i) p1.2
  let k2 := p2.1
  let p3 := f (fun i => state i + dtHalf * k2 i) p2.2
  let k3 := p3.1
  let p4 := f (fun i => state i + dt * k3 i) p3.2
  let k4 := p4.1
  let dtSixth := dt / 6
  (fun i => state i + (k1 i + 2 * (k2 i + k3 i) + k4 i) * dtSixth, p4.2)

/-! ## Izhikevich neuron (src: izhikevich_config.c, izhikevich_model.c) -/

/-- Embeds `IZHIKEVICH_SPIKE_PEAK` constant of izhikevich_config.c. -/
def IZHIKEVICH_SPIKE_PEAK : ℚ := 30

/-- One row of the `IZHIKEVICH_PARAMETERS` preset table. -/
structure IzhikevichConfig where
  a : ℚ
  b : ℚ
  c : ℚ
  d : ℚ
deriving DecidableEq

/-- The seven literature presets of `IZHIKEVICH_PARAMETERS`, in the order
of the C array: chattering, fast-spiking, intrinsically-bursting,
low-threshold-spiking, regular-spiking, resonator, thalamo-cortical. -/
def IZHIKEVICH_PARAMETERS : Fin 7 → IzhikevichConfig
  | 0 => ⟨2/100, 20/100, -50, 2⟩
  | 1 => ⟨10/100, 20/100, -65, 2⟩
  | 2 => ⟨2/100, 20/100, -55, 4⟩
  | 3 => ⟨2/100, 25/100, -65, 2⟩
  | 4 => ⟨2/100, 20/100, -65, 8⟩
  | 5 => ⟨10/100, 26/100, -60, -1⟩
  | 6 => ⟨2/100, 25/100, -65, 5/100⟩

/-- An Izhikevich model instance: parameters `a,b,c,d`, currents
`Iext, Isyn` (the internal buffer), the state vector `(v, u)` and the
integrator step size. -/
structure IzhikevichModel where
  params : IzhikevichConfig
  Iext : ℚ
  Isyn : ℚ
  v : ℚ
  u : ℚ
  dt : ℚ
deriving DecidableEq

/-- Embeds `IzhikevichDerivatives`: dv/dt = 0.04 v² + 5 v + 140 − u + I and
du/dt = a (b v − u), with I = Iext + Isyn, read off the state vector
`[v, u]` passed by the integrator. -/
def IzhikevichDerivatives (nrn : IzhikevichModel) (state : Fin 2 → ℚ) :
    Fin 2 → ℚ :=
  let v := state 0
  let u := state 1
  let a := nrn.params.a
  let b := nrn.params.b
  let I := nrn.Iext + nrn.Isyn
  ![(4/100) * v * v + 5 * v + 140 - u + I, a * (b * v - u)]

/-- The RK4 integration sub-step of `IzhikevichUpdateModel` (the
`RK4Calculate(&model->integrator, model->stateVector)` call): the state
vector after integration, before the spike-reset check. -/
def IzhikevichIntegrate (m : IzhikevichModel) : Fin 2 → ℚ :=
  (RK4Calculate 2 m.dt (fun s c => (IzhikevichDerivatives m s, c))
    ![m.v, m.u] ()).1

/-- Embeds `IzhikevichUpdateModel` on a non-null model: one RK4 step, then the
discrete spike reset if the integrated v reached `IZHIKEVICH_SPIKE_PEAK`.
Returns (reported voltage, updated model). -/
def IzhikevichUpdateModel (m : IzhikevichModel) : ℚ × IzhikevichModel :=
  let y := IzhikevichIntegrate m
  if IZHIKEVICH_SPIKE_PEAK ≤ y 0 then
    (IZHIKEVICH_SPIKE_PEAK,
      { m with v := m.params.c, u := y 1 + m.params.d })
  else
    (y 0, { m with v := y 0, u := y 1 })

/-- Embeds `IzhikevichInitModel`: parameters copied from the preset table,
currents zeroed, v₀ = c − 10, u₀ = b · v₀. -/
def IzhikevichInitModel (type : Fin 7) (dt : ℚ) : IzhikevichModel :=
  let cfg := IZHIKEVICH_PARAMETERS type
  { params := cfg
    Iext := 0
    Isyn := 0
    v := cfg.c - 10
    u := cfg.b * (cfg.c - 10)
    dt := dt }

/-- Embeds `IzhikevichSetExternalCurrent` on a non-null model. -/
def IzhikevichSetExternalCurrent (m : IzhikevichModel) (iExt : ℚ) :
    IzhikevichModel :=
  { m with Iext := iExt }

/-- Embeds `IzhikevichGetRecovery` on a non-null model. -/
def IzhikevichGetRecovery (m : IzhikevichModel) : ℚ := m.u

/-! ## Hodgkin-Huxley rate functions (src: hodgkin_huxley_rates.c)

Each rate function is parametrised by the abstract exponential `e`. -/

/-- Embeds `AlphaM`: guards the removable singularity at v = 25.0 with an exact
equality test, returning the analytic limit 1.0 there. -/
def AlphaM (e : ℚ → ℚ) (voltage : ℚ) : ℚ :=
  if voltage = 25 then 1
  else (25 - voltage) / (10 * (e ((25 - voltage) / 10) - 1))

/-- Embeds `BetaM`. -/
def BetaM (e : ℚ → ℚ) (voltage : ℚ) : ℚ := 4 * e (-voltage / 18)

/-- Embeds `AlphaH`. -/
def AlphaH (e : ℚ → ℚ) (voltage : ℚ) : ℚ := (7/100) * e (-voltage / 20)

/-- Embeds `BetaH`. -/
def BetaH (e : ℚ → ℚ) (voltage : ℚ) : ℚ :=
  1 / (e ((30 - voltage) / 10) + 1)

/-- Embeds `AlphaN`: guards the removable singularity at v = 10.0 with an exact
equality test, returning the analytic limit 0.1 there. -/
def AlphaN (e : ℚ → ℚ) (voltage : ℚ) : ℚ :=
  if voltage = 10 then 1/10
  else (10 - voltage) / (100 * (e ((10 - voltage) / 10) - 1))

/-- Embeds `BetaN`. -/
def BetaN (e : ℚ → ℚ) (voltage : ℚ) : ℚ := (1/8) * e (-voltage / 80)

/-! ## Hodgkin-Huxley neuron (src: hodgkin_huxley_config.c,
hodgkin_huxley_model.c) -/

/-- The float literal `PI` of hodgkin_huxley_config.c, carried over as an
exact rational. -/
def HH_PI : ℚ := 3.14159265358979323846

/-- The `HodgkinHuxleyConfig` parameter set. -/
structure HodgkinHuxleyConfig where
  restingPotential : ℚ
  membraneCapacitancy : ℚ
  leakReversal : ℚ
  sodiumReversal : ℚ
  potassiumReversal : ℚ
  leakConductance : ℚ
  sodiumConductance : ℚ
  potassiumConductance : ℚ
deriving DecidableEq

/-- Embeds `HH_CONFIG`, the default Hodgkin-Huxley parameters. -/
def HH_CONFIG : HodgkinHuxleyConfig :=
  { restingPotential := -65
    membraneCapacitancy := 9 * HH_PI
    leakReversal := 10.6
    sodiumReversal := 115
    potassiumReversal := -12
    leakConductance := 2.7 * HH_PI
    sodiumConductance := 1080 * HH_PI
    potassiumConductance := 324 * HH_PI }

/-- The per-ion current cache written by `HodgkinHuxleyDerivatives` as a
side channel (slots iNa, iK, iL of the internal buffer). -/
structure HHCurrents where
  iNa : ℚ
  iK : ℚ
  iL : ℚ
deriving DecidableEq

/-- A Hodgkin-Huxley model instance: parameters, the input currents
`iExt`/`iSyn`, the cached ionic currents, the state vector (V, m, h, n)
and the integrator step size. -/
structure HodgkinHuxleyModel where
  params : HodgkinHuxleyConfig
  iExt : ℚ
  iSyn : ℚ
  currents : HHCurrents
  v : ℚ
  m : ℚ
  h : ℚ
  n : ℚ
  dt : ℚ
deriving DecidableEq

/-- Embeds `HodgkinHuxleyDerivatives`: computes the three ionic currents from
the state vector `[V, m, h, n]` handed over by the integrator, stores
them into the current cache (the accessor side channel), and produces the
four derivatives.  Parametrised by the abstract exponential `e` used by
the rate functions. -/
def HodgkinHuxleyDerivatives (e : ℚ → ℚ) (nrn : HodgkinHuxleyModel)
    (state : Fin 4 → ℚ) (cache : HHCurrents) :
    (Fin 4 → ℚ) × HHCurrents :=
  let _ := cache
  let v := state 0
  let m := state 1
  let h := state 2
  let n := state 3
  let iL := nrn.params.leakConductance * (nrn.params.leakReversal - v)
  let iK := nrn.params.potassiumConductance * n * n * n * n *
    (nrn.params.potassiumReversal - v)
  let iNa := nrn.params.sodiumConductance * m * m * m * h *
    (nrn.params.sodiumReversal - v)
  let I := nrn.iExt + nrn.iSyn
  (![((iNa + iK + iL) + I) / nrn.params.membraneCapacitancy,
     AlphaM e v * (1 - m) - BetaM e v * m,
     AlphaH e v * (1 - h) - BetaH e v * h,
     AlphaN e v * (1 - n) - BetaN e v * n],
   { iNa := iNa, iK := iK, iL := iL })

/-- Embeds `HodgkinHuxleyInitModel`: parameters copied from `HH_CONFIG`, V₀ set
to the resting potential, each gate set to its steady-state value
α(V₀)/(α(V₀)+β(V₀)), currents zeroed. -/
def HodgkinHuxleyInitModel (e : ℚ → ℚ) (dt : ℚ) : HodgkinHuxleyModel :=
  let rp := HH_CONFIG.restingPotential
  { params := HH_CONFIG
    iExt := 0
    iSyn := 0
    currents := { iNa := 0, iK := 0, iL := 0 }
    v := rp
    m := AlphaM e rp / (AlphaM e rp + BetaM e rp)
    h := AlphaH e rp / (AlphaH e rp + BetaH e rp)
    n := AlphaN e rp / (AlphaN e rp + BetaN e rp)
    dt := dt }

/-- Embeds `HodgkinHuxleyUpdateModel` on a non-null model: one RK4 step over
(V, m, h, n); the derivative callback rewrites the current cache at each
of its four evaluations, so the cache left in the model is the one from
the last (k4) evaluation.  Returns (new voltage, updated model). -/
def HodgkinHuxleyUpdateModel (e : ℚ → ℚ) (nrn : HodgkinHuxleyModel) :
    ℚ × HodgkinHuxleyModel :=
  let p := RK4Calculate 4 nrn.dt (HodgkinHuxleyDerivatives e nrn)
    ![nrn.v, nrn.m, nrn.h, nrn.n] nrn.currents
  let y := p.1
  (y 0, { nrn with v := y 0, m := y 1, h := y 2, n := y 3,
                   currents := p.2 })

/-- Embeds `HodgkinHuxleySetExternalCurent` on a non-null model. -/
def HodgkinHuxleySetExternalCurent (nrn : HodgkinHuxleyModel)
    (iExt : ℚ) : HodgkinHuxleyModel :=
  { nrn with iExt := iExt }

/-- Embeds `HodgkinHuxleyGetIK` on a non-null model: reads the cached value. -/
def HodgkinHuxleyGetIK (nrn : HodgkinHuxleyModel) : ℚ := nrn.currents.iK

/-- Embeds `HodgkinHuxleyGetINa` on a non-null model: reads the cached value. -/
def HodgkinHuxleyGetINa (nrn : HodgkinHuxleyModel) : ℚ :=
  nrn.currents.iNa

/-- Embeds `HodgkinHuxleyGetILeak` on a non-null model: reads the cached
value. -/
def HodgkinHuxleyGetILeak (nrn : HodgkinHuxleyModel) : ℚ :=
  nrn.currents.iL

/-- Embeds `HodgkinHuxleyGetMGate` on a non-null model. -/
def HodgkinHuxleyGetMGate (nrn : HodgkinHuxleyModel) : ℚ := nrn.m

/-- Embeds `HodgkinHuxleyGetHGate` on a non-null model. -/
def HodgkinHuxleyGetHGate (nrn : HodgkinHuxleyModel) : ℚ := nrn.h

/-- Embeds `HodgkinHuxleyGetNGate` on a non-null model. -/
def HodgkinHuxleyGetNGate (nrn : HodgkinHuxleyModel) : ℚ := nrn.n

/-! ## AMPA/GABA-A synapse (src: ampa_gaba_a_config.c,
ampa_gaba_a_model.c)

The synapse's `vPre`/`vPost` pointers alias either the zeroed internal
buffer (unconnected: the dereferenced value is 0.0) or an external
neuron's voltage; the embedding passes the dereferenced values
explicitly.  The `iSynPost` pointer is NULL until `connect`; it is
embedded as an `Option ℚ` accumulator argument (`none` = not
connected). -/

/-- Embeds `T_MAX` constant of ampa_gaba_a_config.c. -/
def T_MAX : ℚ := 1

/-- Embeds `DEFAULT_V_PRE` of ampa_gaba_a_model.c. -/
def DEFAULT_V_PRE : ℚ := -70

/-- Embeds `DEFAULT_V_POST` of ampa_gaba_a_model.c. -/
def DEFAULT_V_POST : ℚ := -70

/-- Synapse type selector (`AmpaGabaaSynapseType`). -/
inductive AmpaGabaaSynapseType where
  | AMPA
  | GABA_A
deriving DecidableEq

/-- Target-neuron selector (`NeuronModel`). -/
inductive NeuronModel where
  | IZHIKEVICH_MODEL
  | HODGKIN_HUXLEY_MODEL
deriving DecidableEq

/-- Field layout shared by `IzhikevichSynapsConfig` and
`HodgkinHuxleySynapseConfig`. -/
structure SynapseConfig where
  KP : ℚ
  VP : ℚ
  ampaConnectionRate : ℚ
  ampaDisconnectionRate : ℚ
  ampaReversalPotential : ℚ
  ampaMaximumConductancy : ℚ
  gaba_aConnectionRate : ℚ
  gaba_aDisconnectionRate : ℚ
  gaba_aReversalPotential : ℚ
  gaba_aMaximumConductancy : ℚ
deriving DecidableEq

/-- Embeds `IZ_SYN_CFG`: default synapse parameters for Izhikevich targets. -/
def IZ_SYN_CFG : SynapseConfig :=
  { KP := 5
    VP := 2
    ampaConnectionRate := 1.1
    ampaDisconnectionRate := 0.30
    ampaReversalPotential := 0
    ampaMaximumConductancy := 0
    gaba_aConnectionRate := 5
    gaba_aDisconnectionRate := 0.18
    gaba_aReversalPotential := -80
    gaba_aMaximumConductancy := 0 }

/-- Embeds `HH_SYN_CFG`: default synapse parameters for Hodgkin-Huxley
targets. -/
def HH_SYN_CFG : SynapseConfig :=
  { KP := 5
    VP := 62
    ampaConnectionRate := 1.1
    ampaDisconnectionRate := 0.19
    ampaReversalPotential := 60
    ampaMaximumConductancy := 0
    gaba_aConnectionRate := 5
    gaba_aDisconnectionRate := 0.18
    gaba_aReversalPotential := -80
    gaba_aMaximumConductancy := 0 }

/-- An AMPA/GABA-A synapse model instance: the state `r` (fraction of
open channels, `stateVector[0]`), the cached `synCurrent` and
`ntConcentration`, the receptor and neurotransmitter parameters, and the
integrator step size. -/
structure AmpaGabaaModel where
  r : ℚ
  synCurrent : ℚ
  ntConcentration : ℚ
  alphaRate : ℚ
  betaRate : ℚ
  eRev : ℚ
  gMax : ℚ
  vP : ℚ
  kP : ℚ
  tMax : ℚ
  dt : ℚ
deriving DecidableEq

/-- Embeds `AmpaGabaaDerivatives`: reads the value behind the pre-synaptic
voltage pointer (`vPreVal`), substituting `DEFAULT_V_PRE` when that
value is exactly 0 (the C truthiness test `*vPre ? *vPre : DEFAULT`),
computes the neurotransmitter sigmoid T, stores it into the
concentration cache, and produces dr/dt = α·T·(1−r) − β·r. -/
def AmpaGabaaDerivatives (e : ℚ → ℚ) (syn : AmpaGabaaModel)
    (vPreVal : ℚ) (state : Fin 1 → ℚ) (cache : ℚ) :
    (Fin 1 → ℚ) × ℚ :=
  let _ := cache
  let r := state 0
  let vPre := if vPreVal = 0 then DEFAULT_V_PRE else vPreVal
  let t := syn.tMax / (1 + e (-(vPre - syn.vP) / syn.kP))
  (![syn.alphaRate * t * (1 - r) - syn.betaRate * r], t)

/-- Embeds `AmpaGabaaInitModel`: state and caches zeroed, `tMax := T_MAX`,
receptor and release parameters selected from the preset catalog by
target-neuron type and synapse polarity. -/
def AmpaGabaaInitModel (synType : AmpaGabaaSynapseType)
    (nrnType : NeuronModel) (dt : ℚ) : AmpaGabaaModel :=
  let cfg := match nrnType with
    | NeuronModel.IZHIKEVICH_MODEL => IZ_SYN_CFG
    | NeuronModel.HODGKIN_HUXLEY_MODEL => HH_SYN_CFG
  match synType with
  | AmpaGabaaSynapseType.AMPA =>
    { r := 0, synCurrent := 0, ntConcentration := 0
      alphaRate := cfg.ampaConnectionRate
      betaRate := cfg.ampaDisconnectionRate
      eRev := cfg.ampaReversalPotential
      gMax := cfg.ampaMaximumConductancy
      vP := cfg.VP, kP := cfg.KP, tMax := T_MAX, dt := dt }
  | AmpaGabaaSynapseType.GABA_A =>
    { r := 0, synCurrent := 0, ntConcentration := 0
      alphaRate := cfg.gaba_aConnectionRate
      betaRate := cfg.gaba_aDisconnectionRate
      eRev := cfg.gaba_aReversalPotential
      gMax := cfg.gaba_aMaximumConductancy
      vP := cfg.VP, kP := cfg.KP, tMax := T_MAX, dt := dt }

/-- Embeds `AmpaGabaaUpdateModel` on a non-null model: one RK4 step for `r`
(whose derivative callback refreshes the concentration cache), then
I_syn = g_max · r · (E_rev − v_post) with the post voltage read through
the pointer and `DEFAULT_V_POST` substituted when the dereferenced value
is exactly 0 (C truthiness test); I_syn is cached and, when the
`iSynPost` pointer is installed, added into the accumulator behind it.
Arguments `vPreVal`/`vPostVal` are the values behind the voltage
pointers (0 when unconnected), `acc` the accumulator behind `iSynPost`
(`none` when not connected).  Returns (updated model, updated
accumulator). -/
def AmpaGabaaUpdateModel (e : ℚ → ℚ) (m : AmpaGabaaModel)
    (vPreVal vPostVal : ℚ) (acc : Option ℚ) :
    AmpaGabaaModel × Option ℚ :=
  let p := RK4Calculate 1 m.dt (AmpaGabaaDerivatives e m vPreVal)
    ![m.r] m.ntConcentration
  let r := p.1 0
  let vPost := if vPostVal = 0 then DEFAULT_V_POST else vPostVal
  let iSyn := m.gMax * r * (m.eRev - vPost)
  ({ m with r := r, ntConcentration := p.2, synCurrent := iSyn },
   match acc with
   | none => none
   | some a => some (a + iSyn))

/-- Embeds `AmpaGabaaGetSynapticCurrent` on a non-null model. -/
def AmpaGabaaGetSynapticCurrent (m : AmpaGabaaModel) : ℚ :=
  m.synCurrent

/-- Embeds `AmpaGabaaSetMaximumConductancy` on a non-null model. -/
def AmpaGabaaSetMaximumConductancy (m : AmpaGabaaModel) (g : ℚ) :
    AmpaGabaaModel :=
  { m with gMax := g }

/-! ## Public operations on possibly-null handles

Each C entry point validates its handle first; the `Option`-level
wrappers below embed exactly that guard.  `none` is the NULL handle. -/

/-- Embeds `IzhikevichSetExternalCurrent` at the handle level: NULL → `false`,
nothing written. -/
def IzhikevichSetExternalCurrentO (m : Option IzhikevichModel)
    (iExt : ℚ) : Bool × Option IzhikevichModel :=
  match m with
  | none => (false, none)
  | some m => (true, some (IzhikevichSetExternalCurrent m iExt))

/-- Embeds `IzhikevichUpdateModel` at the handle level: NULL → returns
`0.00f`, nothing advanced. -/
def IzhikevichUpdateModelO (m : Option IzhikevichModel) :
    ℚ × Option IzhikevichModel :=
  match m with
  | none => (0, none)
  | some m =>
    let p := IzhikevichUpdateModel m
    (p.1, some p.2)

/-- Embeds `IzhikevichGetRecovery` at the handle level: NULL → `0.0f`. -/
def IzhikevichGetRecoveryO (m : Option IzhikevichModel) : ℚ :=
  match m with
  | none => 0
  | some m => IzhikevichGetRecovery m

/-- Embeds `IzhikevichFreeModel` at the handle level: NULL → `false`; a live
handle is released and returns `true`. -/
def IzhikevichFreeModelO (m : Option IzhikevichModel) :
    Bool × Option IzhikevichModel :=
  match m with
  | none => (false, none)
  | some _ => (true, none)

/-- Embeds `HodgkinHuxleySetExternalCurent` at the handle level. -/
def HodgkinHuxleySetExternalCurentO (m : Option HodgkinHuxleyModel)
    (iExt : ℚ) : Bool × Option HodgkinHuxleyModel :=
  match m with
  | none => (false, none)
  | some m => (true, some (HodgkinHuxleySetExternalCurent m iExt))

/-- Embeds `HodgkinHuxleyUpdateModel` at the handle level: NULL → `0.0f`. -/
def HodgkinHuxleyUpdateModelO (e : ℚ → ℚ)
    (m : Option HodgkinHuxleyModel) : ℚ × Option HodgkinHuxleyModel :=
  match m with
  | none => (0, none)
  | some m =>
    let p := HodgkinHuxleyUpdateModel e m
    (p.1, some p.2)

/-- Embeds `HodgkinHuxleyGetIK` at the handle level: NULL → `0.0f`. -/
def HodgkinHuxleyGetIKO (m : Option HodgkinHuxleyModel) : ℚ :=
  match m with
  | none => 0
  | some m => HodgkinHuxleyGetIK m

/-- Embeds `HodgkinHuxleyGetINa` at the handle level: NULL → `0.0f`. -/
def HodgkinHuxleyGetINaO (m : Option HodgkinHuxleyModel) : ℚ :=
  match m with
  | none => 0
  | some m => HodgkinHuxleyGetINa m

/-- Embeds `HodgkinHuxleyGetILeak` at the handle level: NULL → `0.0f`. -/
def HodgkinHuxleyGetILeakO (m : Option HodgkinHuxleyModel) : ℚ :=
  match m with
  | none => 0
  | some m => HodgkinHuxleyGetILeak m

/-- Embeds `HodgkinHuxleyGetMGate` at the handle level: NULL → `0.0f`. -/
def HodgkinHuxleyGetMGateO (m : Option HodgkinHuxleyModel) : ℚ :=
  match m with
  | none => 0
  | some m => HodgkinHuxleyGetMGate m

/-- Embeds `HodgkinHuxleyGetHGate` at the handle level: NULL → `0.0f`. -/
def HodgkinHuxleyGetHGateO (m : Option HodgkinHuxleyModel) : ℚ :=
  match m with
  | none => 0
  | some m => HodgkinHuxleyGetHGate m

/-- Embeds `HodgkinHuxleyGetNGate` at the handle level: NULL → `0.0f`. -/
def HodgkinHuxleyGetNGateO (m : Option HodgkinHuxleyModel) : ℚ :=
  match m with
  | none => 0
  | some m => HodgkinHuxleyGetNGate m

/-- Embeds `HodgkinHuxleyFreeModel` at the handle level: NULL → `false`. -/
def HodgkinHuxleyFreeModelO (m : Option HodgkinHuxleyModel) :
    Bool × Option HodgkinHuxleyModel :=
  match m with
  | none => (false, none)
  | some _ => (true, none)

/-- Result of `AmpaGabaaUpdateModel` at the handle level.  The NULL
branch of the C function does `fprintf(stderr, ...)` before returning
`false`; `printedError` records whether that stderr write happened. -/
structure AmpaGabaaUpdateResult where
  retval : Bool
  printedError : Bool
  model : Option AmpaGabaaModel
  acc : Option ℚ
deriving DecidableEq

/-- Embeds `AmpaGabaaUpdateModel` at the handle level: NULL → prints an error
message to stderr and returns `false`, touching neither the model nor
the accumulator. -/
def AmpaGabaaUpdateModelO (e : ℚ → ℚ) (m : Option AmpaGabaaModel)
    (vPreVal vPostVal : ℚ) (acc : Option ℚ) : AmpaGabaaUpdateResult :=
  match m with
  | none =>
    { retval := false, printedError := true, model := none, acc := acc }
  | some m =>
    let p := AmpaGabaaUpdateModel e m vPreVal vPostVal acc
    { retval := true, printedError := false, model := some p.1,
      acc := p.2 }

/-- Embeds `AmpaGabaaConnectSynapse` at the handle level: a NULL model handle
(or any NULL reference pointer, passed here as a `false` non-nullness
flag) → `false`, and no references are installed. -/
def AmpaGabaaConnectSynapseO (m : Option AmpaGabaaModel)
    (preVoltNonNull postVoltNonNull postIsynNonNull : Bool) :
    Bool × Option AmpaGabaaModel :=
  match m with
  | none => (false, none)
  | some m =>
    if preVoltNonNull && postVoltNonNull && postIsynNonNull then
      (true, some m)
    else
      (false, some m)

/-- Embeds `AmpaGabaaGetSynapticCurrent` at the handle level: NULL → `0.0f`. -/
def AmpaGabaaGetSynapticCurrentO (m : Option AmpaGabaaModel) : ℚ :=
  match m with
  | none => 0
  | some m => AmpaGabaaGetSynapticCurrent m

/-- Embeds `AmpaGabaaSetMaximumConductancy` at the handle level: NULL →
`false`. -/
def AmpaGabaaSetMaximumConductancyO (m : Option AmpaGabaaModel)
    (g : ℚ) : Bool × Option AmpaGabaaModel :=
  match m with
  | none => (false, none)
  | some m => (true, some (AmpaGabaaSetMaximumConductancy m g))

/-- Embeds `AmpaGabaaFreeModel` at the handle level: NULL → `false`. -/
def AmpaGabaaFreeModelO (m : Option AmpaGabaaModel) :
    Bool × Option AmpaGabaaModel :=
  match m with
  | none => (false, none)
  | some _ => (true, none)

/-! ## Theorems -/

/-- Helper: the Izhikevich advance is the integration step followed by
the threshold test on the integrated voltage. -/
theorem izhikevichUpdateModel_eq (m : IzhikevichModel) :
    IzhikevichUpdateModel m =
      (if 30 ≤ IzhikevichIntegrate m 0 then
        (30, { m with v := m.params.c,
                      u := IzhikevichIntegrate m 1 + m.params.d })
      else
        (IzhikevichIntegrate m 0,
          { m with v := IzhikevichIntegrate m 0,
                   u := IzhikevichIntegrate m 1 })) := rfl

/-- Claim C2 (confirmed): for every Izhikevich model state, advance()
first performs one full RK4 integration step (`IzhikevichIntegrate`) and
then, if the post-integration v is at least 30.0, sets v to the preset's
c, adds the preset's d to the integrated u, and returns exactly 30.0; if
the post-integration v is below 30.0 it keeps the integrated v and u and
returns the post-integration v. -/
theorem izhikevich_advance_integrate_then_reset (m : IzhikevichModel) :
    IzhikevichUpdateModel m =
      (if 30 ≤ IzhikevichIntegrate m 0 then
        (30, { m with v := m.params.c,
                      u := IzhikevichIntegrate m 1 + m.params.d })
      else
        (IzhikevichIntegrate m 0,
          { m with v := IzhikevichIntegrate m 0,
                   u := IzhikevichIntegrate m 1 })) :=
  izhikevichUpdateModel_eq m

/-- Claim C10 (confirmed): the voltage reported by the Izhikevich
advance() is never above 30.0: it is exactly 30.0 when the
post-integration v is at or above the spike peak, and the
post-integration v itself (then strictly below 30.0) otherwise. -/
theorem izhikevich_reported_voltage_peak_clamp (m : IzhikevichModel) :
    (IzhikevichUpdateModel m).1 ≤ 30 ∧
    (IzhikevichUpdateModel m).1 =
      (if 30 ≤ IzhikevichIntegrate m 0 then 30
       else IzhikevichIntegrate m 0) := by
  rw [izhikevichUpdateModel_eq]
  by_cases h : 30 ≤ IzhikevichIntegrate m 0
  · simp [h]
  · simp [h]
    exact le_of_lt (lt_of_not_le h)

/-- Claim C3 (confirmed): for every dimension, step size, pure
derivative function and state vector, the integrator's step produces
y + dt/6 · (k1 + 2·k2 + 2·k3 + k4) with k1 = f(y),
k2 = f(y + dt/2·k1), k3 = f(y + dt/2·k2), k4 = f(y + dt·k3). -/
theorem rk4_step_update_formula {σ : Type} (n : ℕ) (dt : ℚ)
    (f : (Fin n → ℚ) → Fin n → ℚ) (y : Fin n → ℚ) (c : σ) :
    (RK4Calculate n dt (fun s c0 => (f s, c0)) y c).1 =
      (let k1 := f y
       let k2 := f (fun j => y j + dt / 2 * k1 j)
       let k3 := f (fun j => y j + dt / 2 * k2 j)
       let k4 := f (fun j => y j + dt * k3 j)
       fun i => y i + dt / 6 * (k1 i + 2 * k2 i + 2 * k3 i + k4 i)) := by
  funext i
  simp only [RK4Calculate]
  have h1 : (fun j => y j + dt * (1/2) * f y j) =
      (fun j => y j + dt / 2 * f y j) := by
    funext j; ring
  rw [h1]
  have h2 : (fun j => y j + dt * (1/2) *
        f (fun j2 => y j2 + dt / 2 * f y j2) j) =
      (fun j => y j + dt / 2 * f (fun j2 => y j2 + dt / 2 * f y j2) j) := by
    funext j; ring
  rw [h2]
  ring

/-- Claim C4 (confirmed): for every exponential, `AlphaM` at voltage
exactly 25.0 returns exactly 1.0 and `AlphaN` at voltage exactly 10.0
returns exactly 0.1; both results are the guarded analytic limits and
are independent of the exponential, so no division is evaluated at those
points. -/
theorem hh_rate_removable_singularities (e : ℚ → ℚ) :
    AlphaM e 25 = 1 ∧ AlphaN e 10 = 1/10 := by
  constructor <;> simp [AlphaM, AlphaN]

/-- Claim C5 (confirmed): for every preset index and step size,
construction immediately followed by the accessors yields the documented
initial values: the Izhikevich neuron starts at v₀ = c − 10 and
u₀ = b · v₀, and the Hodgkin-Huxley neuron starts at the resting
potential with each gate at its steady state α(V₀)/(α(V₀)+β(V₀)). -/
theorem init_conditions_from_presets (e : ℚ → ℚ) (dt : ℚ) :
    (∀ t : Fin 7,
      (IzhikevichInitModel t dt).v = (IZHIKEVICH_PARAMETERS t).c - 10 ∧
      IzhikevichGetRecovery (IzhikevichInitModel t dt) =
        (IZHIKEVICH_PARAMETERS t).b * (IzhikevichInitModel t dt).v) ∧
    ((HodgkinHuxleyInitModel e dt).v = HH_CONFIG.restingPotential ∧
     HodgkinHuxleyGetMGate (HodgkinHuxleyInitModel e dt) =
       AlphaM e HH_CONFIG.restingPotential /
         (AlphaM e HH_CONFIG.restingPotential +
          BetaM e HH_CONFIG.restingPotential) ∧
     HodgkinHuxleyGetHGate (HodgkinHuxleyInitModel e dt) =
       AlphaH e HH_CONFIG.restingPotential /
         (AlphaH e HH_CONFIG.restingPotential +
          BetaH e HH_CONFIG.restingPotential) ∧
     HodgkinHuxleyGetNGate (HodgkinHuxleyInitModel e dt) =
       AlphaN e HH_CONFIG.restingPotential /
         (AlphaN e HH_CONFIG.restingPotential +
          BetaN e HH_CONFIG.restingPotential)) :=
  ⟨fun _ => ⟨rfl, rfl⟩, rfl, rfl, rfl, rfl⟩

/-- Concrete Hodgkin-Huxley instance used to exhibit the one-stage
staleness of the current cache (claim C6): after a step, the cached
sodium current differs from a fresh recomputation at the new state. -/
def hhStale : HodgkinHuxleyModel :=
  { params := { restingPotential := 0, membraneCapacitancy := 1,
                leakReversal := 0, sodiumReversal := 1,
                potassiumReversal := 0, leakConductance := 0,
                sodiumConductance := 1, potassiumConductance := 0 }
    iExt := 0, iSyn := 0, currents := { iNa := 0, iK := 0, iL := 0 }
    v := 0, m := 1, h := 1, n := 0, dt := 1 }

/-- Claim C6 (confirmed): after an advance() of the Hodgkin-Huxley
model, the per-ion current accessors return exactly the currents
computed by the fourth (k4-stage) derivative evaluation of that step,
i.e. the cache produced by `HodgkinHuxleyDerivatives` at the k4
intermediate state y + dt·k3; moreover (concrete instance `hhStale`)
that cached value differs from the current recomputed at the new
post-step voltage and gates. -/
theorem hh_current_accessors_k4_stage (e : ℚ → ℚ)
    (nrn : HodgkinHuxleyModel) :
    ((HodgkinHuxleyGetINa (HodgkinHuxleyUpdateModel e nrn).2,
      HodgkinHuxleyGetIK (HodgkinHuxleyUpdateModel e nrn).2,
      HodgkinHuxleyGetILeak (HodgkinHuxleyUpdateModel e nrn).2) =
      (let y : Fin 4 → ℚ := ![nrn.v, nrn.m, nrn.h, nrn.n]
       let k1 := (HodgkinHuxleyDerivatives e nrn y nrn.currents).1
       let k2 := (HodgkinHuxleyDerivatives e nrn
         (fun i => y i + nrn.dt * (1/2) * k1 i) nrn.currents).1
       let k3 := (HodgkinHuxleyDerivatives e nrn
         (fun i => y i + nrn.dt * (1/2) * k2 i) nrn.currents).1
       let c4 := (HodgkinHuxleyDerivatives e nrn
         (fun i => y i + nrn.dt * k3 i) nrn.currents).2
       (c4.iNa, c4.iK, c4.iL))) ∧
    HodgkinHuxleyGetINa (HodgkinHuxleyUpdateModel (fun _ => 0) hhStale).2 ≠
      (let p := (HodgkinHuxleyUpdateModel (fun _ => 0) hhStale).2
       p.params.sodiumConductance * p.m * p.m * p.m * p.h *
         (p.params.sodiumReversal - p.v)) := by
  constructor
  · rfl
  · norm_num [HodgkinHuxleyUpdateModel, HodgkinHuxleyDerivatives,
      HodgkinHuxleyGetINa, RK4Calculate, hhStale, AlphaM, BetaM, AlphaH,
      BetaH, AlphaN, BetaN]

/-- Claim C1 (amended): for a connected synapse, one advance() leaves
the post-synaptic accumulator increased — never overwritten — by exactly
g_max · r · (E_rev − v), where r is the post-step channel fraction and v
is the referenced post voltage except that a referenced value of exactly
0.0 is replaced by −70.0 (the C truthiness substitution). -/
theorem ampa_advance_accumulates_into_postIsyn (e : ℚ → ℚ)
    (m : AmpaGabaaModel) (vPreVal vPostVal a : ℚ) :
    (AmpaGabaaUpdateModel e m vPreVal vPostVal (some a)).2 =
      some (a + m.gMax *
        (AmpaGabaaUpdateModel e m vPreVal vPostVal (some a)).1.r *
        (m.eRev - (if vPostVal = 0 then -70 else vPostVal))) := rfl

/-- Concrete connected synapse used to refute claim C1 as stated: AMPA
parameters for an Izhikevich target, g_max set to 1, half the channels
open, and step size 0 so that the channel fraction — and hence the
injected current — is independent of the exponential. -/
def c1Syn : AmpaGabaaModel :=
  { r := 1/2, synCurrent := 0, ntConcentration := 0, alphaRate := 11/10,
    betaRate := 3/10, eRev := 0, gMax := 1, vP := 2, kP := 5, tMax := 1,
    dt := 0 }

/-- Claim C1 as stated is false at postV = 0.0: the advance() of the
connected synapse `c1Syn` (pre voltage −70, accumulator 0) increases the
accumulator by g_max · r · (E_rev + 70) = 35, not by the claimed
g_max · r · (E_rev − postV) = 0, because the code substitutes −70.0 for
the referenced post voltage 0.0. -/
theorem ampa_advance_postV_zero_counterexample :
    (AmpaGabaaUpdateModel (fun _ => 0) c1Syn (-70) 0 (some 0)).2 ≠
      some (0 + c1Syn.gMax *
        (AmpaGabaaUpdateModel (fun _ => 0) c1Syn (-70) 0 (some 0)).1.r *
        (c1Syn.eRev - 0)) := by
  norm_num [AmpaGabaaUpdateModel, AmpaGabaaDerivatives, RK4Calculate,
    c1Syn, DEFAULT_V_POST, DEFAULT_V_PRE]

/-- Claim C9 (confirmed): the synapse tests the referenced float value
itself, not connection status: a pre-synaptic voltage value of exactly 0
makes the neurotransmitter computation behave as if the voltage were
−70.0, and a post-synaptic voltage value of exactly 0 makes the advance
(I_syn computation included) behave as if the voltage were −70.0 —
whatever the connection state (`acc` arbitrary). -/
theorem synapse_voltage_truthiness_substitution (e : ℚ → ℚ)
    (m : AmpaGabaaModel) (s : Fin 1 → ℚ) (c vPreVal : ℚ)
    (acc : Option ℚ) :
    AmpaGabaaDerivatives e m 0 s c =
      AmpaGabaaDerivatives e m (-70) s c ∧
    AmpaGabaaUpdateModel e m vPreVal 0 acc =
      AmpaGabaaUpdateModel e m vPreVal (-70) acc := by
  constructor
  · norm_num [AmpaGabaaDerivatives, DEFAULT_V_PRE]
  · norm_num [AmpaGabaaUpdateModel, DEFAULT_V_POST]

/-- Claim C7 as stated is false: the synapse advance on a NULL handle is
not silent — the C function prints an error message to stderr before
returning `false`. -/
theorem null_handle_update_not_silent :
    (AmpaGabaaUpdateModelO (fun _ => 0) none 0 0 none).printedError =
      true := rfl

/-- Claim C7 (amended): every public operation of all three models
called with a NULL handle is a no-op returning a neutral value (0.0 or
false) and modifies no state; all are silent except the synapse's
advance, which additionally prints an error message to stderr. -/
theorem null_handle_neutral_noop (e : ℚ → ℚ) (iExt g vPre vPost : ℚ)
    (acc : Option ℚ) (b1 b2 b3 : Bool) :
    IzhikevichSetExternalCurrentO none iExt = (false, none) ∧
    IzhikevichUpdateModelO none = (0, none) ∧
    IzhikevichGetRecoveryO none = 0 ∧
    IzhikevichFreeModelO none = (false, none) ∧
    HodgkinHuxleySetExternalCurentO none iExt = (false, none) ∧
    HodgkinHuxleyUpdateModelO e none = (0, none) ∧
    HodgkinHuxleyGetIKO none = 0 ∧
    HodgkinHuxleyGetINaO none = 0 ∧
    HodgkinHuxleyGetILeakO none = 0 ∧
    HodgkinHuxleyGetMGateO none = 0 ∧
    HodgkinHuxleyGetHGateO none = 0 ∧
    HodgkinHuxleyGetNGateO none = 0 ∧
    HodgkinHuxleyFreeModelO none = (false, none) ∧
    AmpaGabaaUpdateModelO e none vPre vPost acc =
      { retval := false, printedError := true, model := none,
        acc := acc } ∧
    AmpaGabaaConnectSynapseO none b1 b2 b3 = (false, none) ∧
    AmpaGabaaGetSynapticCurrentO none = 0 ∧
    AmpaGabaaSetMaximumConductancyO none g = (false, none) ∧
    AmpaGabaaFreeModelO none = (false, none) :=
  ⟨rfl, rfl, rfl, rfl, rfl, rfl, rfl, rfl, rfl, rfl, rfl, rfl, rfl, rfl,
   rfl, rfl, rfl, rfl⟩

end NeuroLab
